import Mathlib

/-!
Verification development for the ParcelsF excerpt: the legacy NEMOGrid
helper (`parcels/nemo_grid.py`) embedded from source, and a model of the
field-set / particle-set advection engine exercised by the integration
tests in `parcels/examples/example_globcurrent.py` (that engine itself is
not part of the excerpt, so it is modelled from the spec).
-/

/-! ## Values and arrays

NumPy float values are modelled as either NaN or a rational; 2-D arrays
as lists of rows. -/

/-- A NumPy floating-point value: NaN or a (rational) number. -/
inductive NpVal where
  | nan : NpVal
  | val : ℚ → NpVal
deriving DecidableEq

/-- Embeds `np.isnan` on a single value. -/
def NpVal.isnan : NpVal → Bool
  | .nan => true
  | .val _ => false

/-- A 2-D NumPy array as a list of rows. -/
abbrev NpMat := List (List NpVal)

/-- Embeds the in-place NaN replacement
`self.U[np.isnan(self.U)] = 0.` from `NEMOGrid.__init__`
(`parcels/nemo_grid.py`): every NaN entry becomes 0, all others are kept. -/
def cleanNaN (m : NpMat) : NpMat :=
  m.map (List.map (fun v => if v.isnan then NpVal.val 0 else v))

/-- Embeds `np.transpose` on a rectangular 2-D array: column `j` of the
input becomes row `j` of the output (row count taken from the first row). -/
def npTranspose (m : NpMat) : NpMat :=
  (List.range ((m.head?.map List.length).getD 0)).map
    (fun j => m.filterMap (fun row => row.get? j))

/-- Embeds Python sequence indexing `l[i]` with negative-index support
(`l[-1]` is the last element), returning `none` when out of bounds. -/
def pyGet (l : List NpVal) (i : Int) : Option NpVal :=
  if 0 ≤ i then l.get? i.toNat else l.get? (l.length - (-i).toNat)

/-- An `NpMat` with no NaN entries. -/
def noNaN (m : NpMat) : Prop :=
  ∀ row ∈ m, ∀ v ∈ row, v.isnan = false

instance (m : NpMat) : Decidable (noNaN m) := by
  unfold noNaN; infer_instance

/-! ## NetCDF files written and read by NEMOGrid

A shallow model of the NetCDF files NEMOGrid produces and consumes:
the dimensions and variables created (`createDimension` /
`createVariable` calls, with their dimension lists in order), the
`valid_min` / `valid_max` attributes set on `nav_lon` / `nav_lat`,
and the payload data slots that `NEMOGrid.__init__` reads back
(`nav_lon`, `nav_lat`, and the `[0, 0, :, :]` slice of the velocity
variable). -/

/-- Model of one NetCDF file in the NEMO layout (`filename_U.nc` or
`filename_V.nc`): `dims` records the `createDimension` calls
(`none` = unlimited), `varDims` the `createVariable` calls with each
variable's dimension tuple in order, and the remaining fields hold the
data written into the variables and the attributes of `nav_lon` /
`nav_lat`. `vel00` is the `[0, 0, :, :]` slice of the velocity variable
(`vozocrtx` resp. `vomecrty`). -/
structure NCFile where
  dims : List (String × Option Nat)
  varDims : List (String × List String)
  nav_lon : NpMat
  nav_lat : NpMat
  nav_lon_valid_min : Option NpVal
  nav_lon_valid_max : Option NpVal
  nav_lat_valid_min : Option NpVal
  nav_lat_valid_max : Option NpVal
  depthVar : List NpVal
  time_counter : List NpVal
  vel00 : NpMat

/-- In-memory NEMOGrid state as used by `NEMOGrid.write`: 1-D coordinate
arrays, depth and time axes, and the 2-D flow fields `U`, `V`. -/
structure NEMOGridData where
  lon_u : List NpVal
  lat_u : List NpVal
  lon_v : List NpVal
  lat_v : List NpVal
  depth : List NpVal
  time_counter : List NpVal
  U : NpMat
  V : NpMat

/-- Embeds the U-file half of `NEMOGrid.write` (`parcels/nemo_grid.py`
lines 69-92): dimensions `x`, `y`, `depthu`, unlimited `time_counter`;
variables `nav_lon`, `nav_lat`, `depthu`, `time_counter`, `vozocrtx`
with dimension order `(time_counter, depthu, y, x)`; each `nav_lon` row
filled with `lon_u`, each `nav_lat` column with `lat_u`; `valid_min` /
`valid_max` from `lon_u[0]`, `lon_u[-1]`, `lat_u[0]`, `lat_u[-1]`;
and `vozocrtx[0, 0, :, :] = np.transpose(self.U)`. -/
def NEMOGrid.writeU (g : NEMOGridData) : NCFile where
  dims := [("x", some g.lon_u.length), ("y", some g.lat_u.length),
           ("depthu", some g.depth.length), ("time_counter", none)]
  varDims := [("nav_lon", ["y", "x"]), ("nav_lat", ["y", "x"]),
              ("depthu", ["depthu"]), ("time_counter", ["time_counter"]),
              ("vozocrtx", ["time_counter", "depthu", "y", "x"])]
  nav_lon := List.replicate g.lat_u.length g.lon_u
  nav_lat := g.lat_u.map (fun v => List.replicate g.lon_u.length v)
  nav_lon_valid_min := pyGet g.lon_u 0
  nav_lon_valid_max := pyGet g.lon_u (-1)
  nav_lat_valid_min := pyGet g.lat_u 0
  nav_lat_valid_max := pyGet g.lat_u (-1)
  depthVar := g.depth
  time_counter := g.time_counter
  vel00 := npTranspose g.U

/-- Embeds the V-file half of `NEMOGrid.write` (`parcels/nemo_grid.py`
lines 94-119): like the U file but with `lon_v`, `lat_v`, `depthv`,
`vomecrty`; note that the `valid_min` / `valid_max` attributes of
`nav_lon` / `nav_lat` are taken from `self.lon_u` / `self.lat_u`
(the source does `dset_v['nav_lon'].valid_min = self.lon_u[0]` etc.)
even though the variable values come from `lon_v` / `lat_v`. -/
def NEMOGrid.writeV (g : NEMOGridData) : NCFile where
  dims := [("x", some g.lon_v.length), ("y", some g.lat_v.length),
           ("depthv", some g.depth.length), ("time_counter", none)]
  varDims := [("nav_lon", ["y", "x"]), ("nav_lat", ["y", "x"]),
              ("depthv", ["depthv"]), ("time_counter", ["time_counter"]),
              ("vomecrty", ["time_counter", "depthv", "y", "x"])]
  nav_lon := List.replicate g.lat_v.length g.lon_v
  nav_lat := g.lat_v.map (fun v => List.replicate g.lon_v.length v)
  nav_lon_valid_min := pyGet g.lon_u 0
  nav_lon_valid_max := pyGet g.lon_u (-1)
  nav_lat_valid_min := pyGet g.lat_u 0
  nav_lat_valid_max := pyGet g.lat_u (-1)
  depthVar := g.depth
  time_counter := g.time_counter
  vel00 := npTranspose g.V

/-- Embeds `NEMOGrid.write(filename)`: produces the two files
`filename_U.nc` and `filename_V.nc` (name paired with content). -/
def NEMOGrid.write (filename : String) (g : NEMOGridData) :
    (String × NCFile) × (String × NCFile) :=
  ((filename ++ "_U.nc", NEMOGrid.writeU g), (filename ++ "_V.nc", NEMOGrid.writeV g))

/-! ## NEMOGrid.__init__ and eval

`__init__` opens `filename_U.nc` / `filename_V.nc`, reads `nav_lon`,
`nav_lat` and the velocity slice, zeroes NaNs in place, and builds two
`RectBivariateSpline` interpolators. SciPy's spline fitting is external
to the repository, so the embedding is parametric in a spline builder:
what is verified is which arguments NEMOGrid passes to it and how
`eval` uses the two fitted splines. -/

/-- Abstract stand-in for `scipy.interpolate.RectBivariateSpline`:
given the first coordinate axis, the second coordinate axis, the data
array, and the two spline degrees `kx`, `ky`, it yields the fitted
evaluation function (whose `.ev(a, b)` is plain application). -/
abbrev SplineBuilder := List NpVal → List NpVal → NpMat → Nat → Nat → (ℚ → ℚ → ℚ)

/-- Embeds the NumPy column slice `m[:, 0]`. -/
def matCol0 (m : NpMat) : List NpVal :=
  m.filterMap (fun row => row.get? 0)

/-- Embeds the NumPy row slice `m[0, :]`. -/
def matRow0 (m : NpMat) : List NpVal :=
  m.head?.getD []

/-- State produced by `NEMOGrid.__init__` with a filename: the raw
coordinate arrays, the NaN-cleaned flow fields, and the two fitted
interpolators. -/
structure NEMOGridRead where
  lon_u : NpMat
  lat_u : NpMat
  lon_v : NpMat
  lat_v : NpMat
  U : NpMat
  V : NpMat
  interp_u : ℚ → ℚ → ℚ
  interp_v : ℚ → ℚ → ℚ

/-- Variable names `NEMOGrid.__init__` reads from the U file
(`dset_u['nav_lon']`, `dset_u['nav_lat']`, `dset_u['vozocrtx']`). -/
def initReadVarsU : List String := ["nav_lon", "nav_lat", "vozocrtx"]

/-- Variable names `NEMOGrid.__init__` reads from the V file
(`dset_v['nav_lon']`, `dset_v['nav_lat']`, `dset_v['vomecrty']`). -/
def initReadVarsV : List String := ["nav_lon", "nav_lat", "vomecrty"]

/-- Filenames `NEMOGrid.__init__` opens for a given `filename` argument:
`'%s_U.nc' % filename` and `'%s_V.nc' % filename`. -/
def initOpenFilenames (filename : String) : String × String :=
  (filename ++ "_U.nc", filename ++ "_V.nc")

/-- Embeds `NEMOGrid.__init__(filename, degree)` (`parcels/nemo_grid.py`
lines 32-54), given the contents of the two opened files: reads
`nav_lon` / `nav_lat` and the `[0, 0, :, :]` velocity slices, replaces
NaN entries by 0 in `U` and `V`, then fits
`RectBivariateSpline(lat[:, 0], lon[0, :], cleaned, kx=degree, ky=degree)`
for each component. -/
def NEMOGrid.initFrom (RBS : SplineBuilder) (fileU fileV : NCFile)
    (degree : Nat := 3) : NEMOGridRead where
  lon_u := fileU.nav_lon
  lat_u := fileU.nav_lat
  lon_v := fileV.nav_lon
  lat_v := fileV.nav_lat
  U := cleanNaN fileU.vel00
  V := cleanNaN fileV.vel00
  interp_u := RBS (matCol0 fileU.nav_lat) (matRow0 fileU.nav_lon)
    (cleanNaN fileU.vel00) degree degree
  interp_v := RBS (matCol0 fileV.nav_lat) (matRow0 fileV.nav_lon)
    (cleanNaN fileV.vel00) degree degree

/-- Embeds `NEMOGrid.eval(x, y)`: returns
`(interp_u.ev(y, x), interp_v.ev(y, x))`. -/
def NEMOGridRead.eval (g : NEMOGridRead) (x y : ℚ) : ℚ × ℚ :=
  (g.interp_u y x, g.interp_v y x)

/-! ## The class-level particle container

`NEMOGrid._particles = []` is a class attribute; `add_particle` does
`self._particles.append(p)`. Python attribute lookup consults the
instance `__dict__` first and falls back to the class attribute, and
`list.append` mutates the looked-up list object in place — so with no
instance-level assignment, all instances share one list. The model makes
that explicit: the class attribute is one list, each instance carries an
optional override (always `none` in this code) plus its other state. -/

/-- A NEMOGrid instance as a Python object: the optional instance-level
`_particles` entry of its `__dict__` (never assigned by the source code,
hence `none`), and the rest of its attribute state. -/
structure NEMOGridObj where
  particlesAttr : Option (List Nat)
  U : NpMat
  V : NpMat
deriving DecidableEq

/-- Python attribute lookup for `_particles` on an instance: the
instance `__dict__` entry if present, else the class attribute. -/
def NEMOGrid.lookupParticles (classParticles : List Nat) (g : NEMOGridObj) :
    List Nat :=
  g.particlesAttr.getD classParticles

/-- Embeds `NEMOGrid.add_particle(self, p)`, i.e.
`self._particles.append(p)`: the append mutates whichever list attribute
lookup found — the shared class-level list when the instance has no
override. Returns the updated class attribute and instance. -/
def NEMOGrid.add_particle (classParticles : List Nat) (g : NEMOGridObj)
    (p : Nat) : List Nat × NEMOGridObj :=
  match g.particlesAttr with
  | none => (classParticles ++ [p], g)
  | some l => (classParticles, { g with particlesAttr := some (l ++ [p]) })

/-! ## Field sets and advection (modelled from the spec)

The advection engine (FieldSet, ParticleSet, AdvectionRK4, kernels,
error recovery) is exercised by the tests in
`parcels/examples/example_globcurrent.py` but its implementation is not
part of the excerpt. The definitions below are modelled from the spec:
"particles are advected through time-varying velocity fields (loaded
from NetCDF ocean-current datasets) using numerical integration
schemes", with deferred load meaning "loading field time-slices on
demand rather than eagerly into memory". -/

/-- Modelled from the spec: the time-stamped velocity data stored in a
series of NetCDF files (missing from the excerpt: the FieldSet file
readers). `times` is the time axis of the series; `dataAt t` is the
velocity snapshot stored for slice time `t`, as a function of
longitude and latitude. -/
structure RawFieldData where
  times : List ℚ
  dataAt : ℚ → ℚ → ℚ → ℚ × ℚ

/-- Modelled from the spec: the error raised when field data is
requested at a time outside the loaded time axis (the spec's
"time-extrapolation error"). -/
inductive FieldErr where
  | TimeExtrapolation : FieldErr
deriving DecidableEq

/-- Finds the consecutive pair of slice times bracketing `t` on the
time axis, `none` when `t` falls outside every bracket. -/
def timeBracket : List ℚ → ℚ → Option (ℚ × ℚ)
  | t1 :: t2 :: rest, t =>
      if t1 ≤ t ∧ t ≤ t2 then some (t1, t2) else timeBracket (t2 :: rest) t
  | _, _ => none

/-- Linear interpolation in time between two velocity samples taken at
slice times `t1` and `t2`. -/
def interpTime (f1 f2 : ℚ × ℚ) (t1 t2 t : ℚ) : ℚ × ℚ :=
  (((t2 - t) * f1.1 + (t - t1) * f2.1) / (t2 - t1),
   ((t2 - t) * f1.2 + (t - t1) * f2.2) / (t2 - t1))

/-- Modelled from the spec: deferred-load field evaluation — the
bracketing slice times are looked up on the raw time axis and the two
needed snapshots are fetched from file on demand; a time outside the
loaded axis raises the time-extrapolation error. -/
def evalDeferred (raw : RawFieldData) (t x y : ℚ) : Except FieldErr (ℚ × ℚ) :=
  match timeBracket raw.times t with
  | some (t1, t2) =>
      .ok (interpTime (raw.dataAt t1 x y) (raw.dataAt t2 x y) t1 t2 t)
  | none => .error .TimeExtrapolation

/-- Modelled from the spec: eager (full) load — every time slice of the
series is read into memory up front, as a list of (time, snapshot)
pairs. -/
def loadAll (raw : RawFieldData) : List (ℚ × (ℚ → ℚ → ℚ × ℚ)) :=
  raw.times.map (fun t => (t, raw.dataAt t))

/-- Finds the consecutive pair of in-memory slices bracketing `t`. -/
def slicesBracket :
    List (ℚ × (ℚ → ℚ → ℚ × ℚ)) → ℚ →
      Option ((ℚ × (ℚ → ℚ → ℚ × ℚ)) × (ℚ × (ℚ → ℚ → ℚ × ℚ)))
  | s1 :: s2 :: rest, t =>
      if s1.1 ≤ t ∧ t ≤ s2.1 then some (s1, s2) else slicesBracket (s2 :: rest) t
  | _, _ => none

/-- Modelled from the spec: field evaluation over a fully loaded field
set — the bracketing slices are found among the preloaded snapshots. -/
def evalEager (slices : List (ℚ × (ℚ → ℚ → ℚ × ℚ))) (t x y : ℚ) :
    Except FieldErr (ℚ × ℚ) :=
  match slicesBracket slices t with
  | some (s1, s2) => .ok (interpTime (s1.2 x y) (s2.2 x y) s1.1 s2.1 t)
  | none => .error .TimeExtrapolation

/-- Modelled from the spec: subsetting a field series in time to its
first `k` files (the tests pass `files[0:10]`). -/
def subsetTime (raw : RawFieldData) (k : Nat) : RawFieldData :=
  ⟨raw.times.take k, raw.dataAt⟩

/-- Modelled from the spec: an xarray dataset as produced by
`xr.open_mfdataset` over the same NetCDF series (missing from the
excerpt: the xarray backend). -/
structure XArrayDataset where
  times : List ℚ
  values : ℚ → ℚ → ℚ → ℚ × ℚ

/-- Modelled from the spec: `xr.open_mfdataset` reads the same file
series into an xarray dataset — same time axis, same stored values. -/
def open_mfdataset (raw : RawFieldData) : XArrayDataset :=
  ⟨raw.times, raw.dataAt⟩

/-- Modelled from the spec: a FieldSet reduced to what the advection
kernel consumes — the evaluation function of its velocity fields. -/
structure FieldSetM where
  evalUV : ℚ → ℚ → ℚ → Except FieldErr (ℚ × ℚ)

/-- Modelled from the spec: `FieldSet.from_netcdf` with the default
deferred load — field evaluation fetches slices from the raw series on
demand. -/
def FieldSetM.from_netcdf (raw : RawFieldData) : FieldSetM :=
  ⟨evalDeferred raw⟩

/-- Modelled from the spec: deferred field evaluation over an
xarray dataset, the xarray-backend counterpart of `evalDeferred`. -/
def evalXarray (ds : XArrayDataset) (t x y : ℚ) : Except FieldErr (ℚ × ℚ) :=
  match timeBracket ds.times t with
  | some (t1, t2) =>
      .ok (interpTime (ds.values t1 x y) (ds.values t2 x y) t1 t2 t)
  | none => .error .TimeExtrapolation

/-- Modelled from the spec: `FieldSet.from_xarray_dataset` with the
default deferred load. -/
def FieldSetM.from_xarray_dataset (ds : XArrayDataset) : FieldSetM :=
  ⟨evalXarray ds⟩

/-- Modelled from the spec: one step of the `AdvectionRK4` kernel —
fourth-order Runge-Kutta in longitude and latitude, sampling the
velocity field at the particle position, two half-step midpoints, and
the full step; any field-evaluation error aborts the step. -/
def advRK4Step (F : ℚ → ℚ → ℚ → Except FieldErr (ℚ × ℚ)) (t dt lon lat : ℚ) :
    Except FieldErr (ℚ × ℚ) := do
  let uv1 ← F t lon lat
  let lon1 := lon + uv1.1 * dt / 2
  let lat1 := lat + uv1.2 * dt / 2
  let uv2 ← F (t + dt / 2) lon1 lat1
  let lon2 := lon + uv2.1 * dt / 2
  let lat2 := lat + uv2.2 * dt / 2
  let uv3 ← F (t + dt / 2) lon2 lat2
  let lon3 := lon + uv3.1 * dt
  let lat3 := lat + uv3.2 * dt
  let uv4 ← F (t + dt) lon3 lat3
  .ok (lon + (uv1.1 + 2 * uv2.1 + 2 * uv3.1 + uv4.1) / 6 * dt,
       lat + (uv1.2 + 2 * uv2.2 + 2 * uv3.2 + uv4.2) / 6 * dt)

/-- Modelled from the spec: executing `AdvectionRK4` for `n` steps of
size `dt` starting at time `t` from a given (lon, lat). -/
def runAdvRK4 (F : ℚ → ℚ → ℚ → Except FieldErr (ℚ × ℚ)) (t dt : ℚ) :
    Nat → ℚ × ℚ → Except FieldErr (ℚ × ℚ)
  | 0, p => .ok p
  | n + 1, p => do
      let q ← advRK4Step F t dt p.1 p.2
      runAdvRK4 F (t + dt) dt n q

/-! ## Particle sets, deletion and recovery (modelled from the spec)

For the particle-independence test the engine is modelled at the
particle-set level: a set is a list of particles, a step applies the
kernel to each particle, and a kernel that signals an error code sends
the particle through the recovery loop (here: `DeleteParticle`, which
removes it from the set). The velocity field is total here — the test
keeps all surviving particles in bounds. -/

/-- Modelled from the spec: the error code returned by the test's
`DeleteP0` kernel (`ErrorCode.ErrorOutOfBounds`). -/
inductive PErrCode where
  | ErrorOutOfBounds : PErrCode
deriving DecidableEq

/-- Modelled from the spec: a particle with its id and position. -/
structure PParticle where
  id : Nat
  lon : ℚ
  lat : ℚ
deriving DecidableEq

/-- Modelled from the spec: the `AdvectionRK4` kernel over a total
velocity field, updating a particle's position by one RK4 step. -/
def advectionRK4P (F : ℚ → ℚ → ℚ → ℚ × ℚ) (t dt : ℚ) (p : PParticle) :
    PParticle :=
  let uv1 := F t p.lon p.lat
  let lon1 := p.lon + uv1.1 * dt / 2
  let lat1 := p.lat + uv1.2 * dt / 2
  let uv2 := F (t + dt / 2) lon1 lat1
  let lon2 := p.lon + uv2.1 * dt / 2
  let lat2 := p.lat + uv2.2 * dt / 2
  let uv3 := F (t + dt / 2) lon2 lat2
  let lon3 := p.lon + uv3.1 * dt
  let lat3 := p.lat + uv3.2 * dt
  let uv4 := F (t + dt) lon3 lat3
  { p with
    lon := p.lon + (uv1.1 + 2 * uv2.1 + 2 * uv3.1 + uv4.1) / 6 * dt,
    lat := p.lat + (uv1.2 + 2 * uv2.2 + 2 * uv3.2 + uv4.2) / 6 * dt }

/-- The test's `DeleteP0` kernel: particle id 0 returns
`ErrorCode.ErrorOutOfBounds` (to pass through the recovery loop),
every other particle continues. -/
def DeleteP0 (p : PParticle) : Option PErrCode :=
  if p.id = 0 then some .ErrorOutOfBounds else none

/-- Modelled from the spec: the combined kernel
`Kernel(DeleteP0) + AdvectionRK4` executed with
`recovery={ErrorOutOfBounds: DeleteParticle}` — an error code from
`DeleteP0` sends the particle to the recovery kernel, which deletes it
(`none`); otherwise the particle is advected. -/
def kernelDelP0RK4 (F : ℚ → ℚ → ℚ → ℚ × ℚ) (t dt : ℚ) (p : PParticle) :
    Option PParticle :=
  match DeleteP0 p with
  | some _ => none
  | none => some (advectionRK4P F t dt p)

/-- Modelled from the spec: one execution step of the particle set
under the combined kernel with deletion recovery — each particle is
updated independently and deleted particles leave the set. -/
def stepRec (F : ℚ → ℚ → ℚ → ℚ × ℚ) (t dt : ℚ) (ps : List PParticle) :
    List PParticle :=
  ps.filterMap (kernelDelP0RK4 F t dt)

/-- Modelled from the spec: `n` execution steps under the combined
kernel with deletion recovery, time advancing by `dt` each step. -/
def runRec (F : ℚ → ℚ → ℚ → ℚ × ℚ) (t dt : ℚ) :
    Nat → List PParticle → List PParticle
  | 0, ps => ps
  | n + 1, ps => runRec F (t + dt) dt n (stepRec F t dt ps)

/-- Modelled from the spec: one execution step of the particle set
under `AdvectionRK4` alone. -/
def stepPlain (F : ℚ → ℚ → ℚ → ℚ × ℚ) (t dt : ℚ) (ps : List PParticle) :
    List PParticle :=
  ps.map (advectionRK4P F t dt)

/-- Modelled from the spec: `n` execution steps under `AdvectionRK4`
alone. -/
def runPlain (F : ℚ → ℚ → ℚ → ℚ × ℚ) (t dt : ℚ) :
    Nat → List PParticle → List PParticle
  | 0, ps => ps
  | n + 1, ps => runPlain F (t + dt) dt n (stepPlain F t dt ps)

/-- The `n`-step RK4 evolution of a single particle. -/
def evolveP (F : ℚ → ℚ → ℚ → ℚ × ℚ) (t dt : ℚ) :
    Nat → PParticle → PParticle
  | 0, p => p
  | n + 1, p => evolveP F (t + dt) dt n (advectionRK4P F t dt p)

/-! ## Concrete data used to instantiate the theorems -/

/-- A concrete in-memory grid used to instantiate the write/init
round-trip theorem. -/
def roundtripGrid : NEMOGridData where
  lon_u := [NpVal.val 1, NpVal.val 2]
  lat_u := [NpVal.val 10, NpVal.val 20]
  lon_v := [NpVal.val 3, NpVal.val 4]
  lat_v := [NpVal.val 30, NpVal.val 40]
  depth := [NpVal.val 0]
  time_counter := [NpVal.val 0]
  U := [[NpVal.val 1, NpVal.val 2], [NpVal.val 3, NpVal.val 4]]
  V := [[NpVal.val 5, NpVal.val 6], [NpVal.val 7, NpVal.val 8]]

/-- A trivial spline builder used to instantiate theorems that are
parametric in the SciPy interpolator. -/
def zeroSpline : SplineBuilder :=
  fun _ _ _ _ _ => fun _ _ => 0

/-- A concrete two-slice field series with zero velocity, used to
instantiate the advection theorems. -/
def calmSeries : RawFieldData where
  times := [0, 86400]
  dataAt := fun _ _ _ => (0, 0)

/-! ## Helper lemmas -/

/-- Entry-wise description of `cleanNaN`: position (i, j) of the cleaned
array holds the original value with NaN replaced by 0. -/
theorem cleanNaN_get (m : NpMat) (i j : Nat) :
    ((cleanNaN m).get? i).bind (fun r => r.get? j) =
      ((m.get? i).bind (fun r => r.get? j)).map
        (fun v => if v.isnan then NpVal.val 0 else v) := by
  simp only [cleanNaN, List.get?_map]
  cases h : m.get? i with
  | none => rfl
  | some row => simp [List.get?_map]

/-- The cleaned array has no NaN entries. -/
theorem noNaN_cleanNaN (m : NpMat) : noNaN (cleanNaN m) := by
  intro row hrow v hv
  simp only [cleanNaN, List.mem_map] at hrow
  obtain ⟨r0, _, rfl⟩ := hrow
  simp only [List.mem_map] at hv
  obtain ⟨v0, _, rfl⟩ := hv
  cases v0 <;> rfl

/-- Cleaning is the identity on NaN-free arrays. -/
theorem cleanNaN_eq_self (m : NpMat) (h : noNaN m) : cleanNaN m = m := by
  unfold cleanNaN
  induction m with
  | nil => rfl
  | cons row rest ih =>
      have hrow : ∀ v ∈ row, v.isnan = false := h row (List.mem_cons_self _ _)
      have hrest : noNaN rest := fun r hr => h r (List.mem_cons_of_mem _ hr)
      simp only [List.map_cons, ih hrest, List.cons.injEq, and_true]
      calc row.map (fun v => if v.isnan then NpVal.val 0 else v)
          = row.map id := List.map_congr_left (fun v hv => by simp [hrow v hv])
        _ = row := List.map_id row

/-- Transposition preserves NaN-freeness. -/
theorem noNaN_npTranspose (m : NpMat) (h : noNaN m) : noNaN (npTranspose m) := by
  intro col hcol v hv
  simp only [npTranspose, List.mem_map, List.mem_range] at hcol
  obtain ⟨j, _, rfl⟩ := hcol
  rw [List.mem_filterMap] at hv
  obtain ⟨row, hrow, hget⟩ := hv
  exact h row hrow v (List.get?_mem hget)

/-- Bracket search over preloaded slices agrees with bracket search on
the raw time axis. -/
theorem slicesBracket_map (d : ℚ → ℚ → ℚ → ℚ × ℚ) :
    ∀ (l : List ℚ) (t : ℚ),
      slicesBracket (l.map (fun s => (s, d s))) t =
        (timeBracket l t).map (fun p => ((p.1, d p.1), (p.2, d p.2)))
  | [], _ => rfl
  | [_], _ => rfl
  | t1 :: t2 :: rest, t => by
      show slicesBracket ((t1, d t1) :: (t2, d t2) :: rest.map _) t = _
      rw [slicesBracket, timeBracket]
      by_cases h : t1 ≤ t ∧ t ≤ t2
      · rw [if_pos h, if_pos h]
        rfl
      · rw [if_neg h, if_neg h]
        exact slicesBracket_map d (t2 :: rest) t

/-- Deferred-load evaluation agrees with evaluation over the eagerly
loaded slices, at every time and position. -/
theorem evalDeferred_eq_eager (raw : RawFieldData) (t x y : ℚ) :
    evalDeferred raw t x y = evalEager (loadAll raw) t x y := by
  unfold evalDeferred evalEager loadAll
  rw [slicesBracket_map raw.dataAt raw.times t]
  cases timeBracket raw.times t with
  | none => rfl
  | some p => rfl

/-- A time below every element of the axis has no bracket. -/
theorem timeBracket_none_of_lt :
    ∀ (l : List ℚ) (t : ℚ), (∀ s ∈ l, t < s) → timeBracket l t = none
  | [], _, _ => rfl
  | [_], _, _ => rfl
  | t1 :: t2 :: rest, t, h => by
      rw [timeBracket, if_neg, timeBracket_none_of_lt (t2 :: rest) t]
      · intro s hs
        exact h s (List.mem_cons_of_mem _ hs)
      · intro hand
        exact absurd hand.1 (not_le.mpr (h t1 (List.mem_cons_self _ _)))

/-- The RK4 kernel preserves the particle id. -/
theorem advectionRK4P_id (F : ℚ → ℚ → ℚ → ℚ × ℚ) (t dt : ℚ) (p : PParticle) :
    (advectionRK4P F t dt p).id = p.id := rfl

/-- Zero-step evolution is the identity on a particle list. -/
theorem map_evolveP_zero (F : ℚ → ℚ → ℚ → ℚ × ℚ) (t dt : ℚ)
    (ps : List PParticle) : ps.map (evolveP F t dt 0) = ps := by
  have : evolveP F t dt 0 = id := funext fun p => rfl
  rw [this, List.map_id]

/-- Plain execution advances every particle independently by RK4. -/
theorem runPlain_eq_map (F : ℚ → ℚ → ℚ → ℚ × ℚ) :
    ∀ (n : Nat) (t dt : ℚ) (ps : List PParticle),
      runPlain F t dt n ps = ps.map (evolveP F t dt n)
  | 0, t, dt, ps => (map_evolveP_zero F t dt ps).symm
  | n + 1, t, dt, ps => by
      rw [runPlain, runPlain_eq_map F n (t + dt) dt, stepPlain, List.map_map]
      rfl

/-- On a set with no id-0 particle, the combined kernel with recovery
deletes nothing and acts exactly as plain RK4. -/
theorem stepRec_noZero (F : ℚ → ℚ → ℚ → ℚ × ℚ) (t dt : ℚ)
    (ps : List PParticle) (h : ∀ p ∈ ps, p.id ≠ 0) :
    stepRec F t dt ps = stepPlain F t dt ps := by
  induction ps with
  | nil => rfl
  | cons p rest ih =>
      have hp : kernelDelP0RK4 F t dt p = some (advectionRK4P F t dt p) := by
        unfold kernelDelP0RK4 DeleteP0
        rw [if_neg (h p (List.mem_cons_self _ _))]
      have hrest := ih (fun q hq => h q (List.mem_cons_of_mem _ hq))
      unfold stepRec stepPlain at hrest ⊢
      simp only [List.filterMap_cons, hp, List.map_cons]
      rw [hrest]

/-- On a set with no id-0 particle, recovered execution advances every
particle independently by RK4, deleting none. -/
theorem runRec_noZero (F : ℚ → ℚ → ℚ → ℚ × ℚ) :
    ∀ (n : Nat) (t dt : ℚ) (ps : List PParticle),
      (∀ p ∈ ps, p.id ≠ 0) →
      runRec F t dt n ps = ps.map (evolveP F t dt n)
  | 0, t, dt, ps, _ => (map_evolveP_zero F t dt ps).symm
  | n + 1, t, dt, ps, h => by
      rw [runRec, stepRec_noZero F t dt ps h,
        runRec_noZero F n (t + dt) dt (stepPlain F t dt ps) ?_, stepPlain,
        List.map_map]
      · rfl
      · intro q hq
        rw [stepPlain, List.mem_map] at hq
        obtain ⟨p, hp, rfl⟩ := hq
        rw [advectionRK4P_id]
        exact h p hp

/-- A field evaluation error in the first RK4 stage aborts the step. -/
theorem advRK4Step_error (F : ℚ → ℚ → ℚ → Except FieldErr (ℚ × ℚ))
    (t dt lon lat : ℚ) (e : FieldErr) (h : F t lon lat = .error e) :
    advRK4Step F t dt lon lat = .error e := by
  unfold advRK4Step
  rw [h]
  rfl

/-- A field evaluation error at the start position and time aborts the
whole advection run. -/
theorem runAdvRK4_error_first (F : ℚ → ℚ → ℚ → Except FieldErr (ℚ × ℚ))
    (t dt : ℚ) (n : Nat) (p : ℚ × ℚ) (e : FieldErr)
    (h : F t p.1 p.2 = .error e) :
    runAdvRK4 F t dt (n + 1) p = .error e := by
  simp only [runAdvRK4]
  rw [advRK4Step_error F t dt p.1 p.2 e h]
  rfl

/-! ## Claim theorems -/

/-- C1: For every advection run of a single particle with AdvectionRK4
(forward dt = 3600 starting at lon 25, lat -35, or backward dt = -3600
starting at lon 20, lat -39), the trajectory obtained with a field set
subsetted to the first 10 time slices under deferred load stays within
1e-4 degrees of the trajectory obtained with the fully loaded field set
over the same 10 files (the two trajectories coincide, so the distance
is 0 < 1e-4). -/
theorem globcurrent_subset_deferred_vs_full
    (raw : RawFieldData) (tstart dt lon0 lat0 : ℚ) (n : Nat)
    (hcase : (dt = 3600 ∧ lon0 = 25 ∧ lat0 = -35) ∨
             (dt = -3600 ∧ lon0 = 20 ∧ lat0 = -39))
    (lonS latS lonA latA : ℚ)
    (hS : runAdvRK4 (evalDeferred (subsetTime raw 10)) tstart dt n (lon0, lat0) =
      Except.ok (lonS, latS))
    (hA : runAdvRK4 (evalEager (loadAll (subsetTime raw 10))) tstart dt n (lon0, lat0) =
      Except.ok (lonA, latA)) :
    |lonS - lonA| < 1 / 10000 ∧ |latS - latA| < 1 / 10000 := by
  have hFG : evalDeferred (subsetTime raw 10) = evalEager (loadAll (subsetTime raw 10)) :=
    funext fun t => funext fun x => funext fun y => evalDeferred_eq_eager _ t x y
  rw [hFG, hA] at hS
  injection hS with h
  injection h with h1 h2
  rw [h1, h2, sub_self, abs_zero]
  norm_num

/-- C1 witness: the theorem instantiated on a concrete two-slice calm
series for one forward step. -/
theorem globcurrent_subset_deferred_vs_full_inst :
    |(25 : ℚ) - 25| < 1 / 10000 ∧ |(-35 : ℚ) - (-35)| < 1 / 10000 :=
  globcurrent_subset_deferred_vs_full calmSeries 0 3600 25 (-35) 1
    (Or.inl ⟨rfl, rfl, rfl⟩) 25 (-35) 25 (-35)
    (by with_unfolding_all rfl) (by with_unfolding_all rfl)

/-- C2: for every advection run of a single JIT particle with
AdvectionRK4 (dt = 300 or -300, start lon 25, lat -35), a FieldSet built
from an xarray dataset over the same files and a FieldSet built directly
from the NetCDF files produce equal trajectories, in particular equal
final particle longitude and latitude. -/
theorem globcurrent_xarray_vs_netcdf
    (raw : RawFieldData) (tstart dt lon0 lat0 : ℚ) (n : Nat)
    (hdt : dt = 300 ∨ dt = -300) (hlon : lon0 = 25) (hlat : lat0 = -35) :
    runAdvRK4 ((FieldSetM.from_netcdf raw).evalUV) tstart dt n (lon0, lat0) =
      runAdvRK4 ((FieldSetM.from_xarray_dataset (open_mfdataset raw)).evalUV)
        tstart dt n (lon0, lat0) := rfl

/-- C2 witness: the theorem instantiated on a concrete two-slice calm
series for one forward step of size 300. -/
theorem globcurrent_xarray_vs_netcdf_inst :
    runAdvRK4 ((FieldSetM.from_netcdf calmSeries).evalUV) 0 300 1 (25, -35) =
      runAdvRK4 ((FieldSetM.from_xarray_dataset (open_mfdataset calmSeries)).evalUV)
        0 300 1 (25, -35) :=
  globcurrent_xarray_vs_netcdf calmSeries 0 300 25 (-35) 1 (Or.inl rfl) rfl rfl

/-- C3: deleting one particle does not alter another particle's
trajectory: for two particles started at the same position and time,
executing DeleteP0 + AdvectionRK4 with ErrorOutOfBounds recovery that
deletes particle id 0 yields, for the surviving particle (the last
particle of the set), the same final longitude and latitude as executing
AdvectionRK4 alone on the two-particle set. -/
theorem globcurrent_particle_independence
    (F : ℚ → ℚ → ℚ → ℚ × ℚ) (t0 dt lon0 lat0 : ℚ) (n : Nat) :
    (runRec F t0 dt n [⟨0, lon0, lat0⟩, ⟨1, lon0, lat0⟩]).getLast?.map
        (fun p => (p.lon, p.lat)) =
      (runPlain F t0 dt n [⟨0, lon0, lat0⟩, ⟨1, lon0, lat0⟩]).getLast?.map
        (fun p => (p.lon, p.lat)) := by
  cases n with
  | zero => rfl
  | succ m =>
      have hstep : stepRec F t0 dt [⟨0, lon0, lat0⟩, ⟨1, lon0, lat0⟩] =
          [advectionRK4P F t0 dt ⟨1, lon0, lat0⟩] := rfl
      have hid : ∀ p ∈ [advectionRK4P F t0 dt ⟨1, lon0, lat0⟩],
          PParticle.id p ≠ 0 := by
        intro p hp
        rw [List.mem_singleton] at hp
        rw [hp, advectionRK4P_id]
        exact Nat.one_ne_zero
      rw [runRec, hstep, runRec_noZero F m (t0 + dt) dt _ hid,
        runPlain_eq_map]
      rfl

/-- C4: requesting field data at a time outside the loaded time axis
raises the time-extrapolation error: for a particle whose start time is
one day (86400 s) before the first time of the loaded field set,
executing AdvectionRK4 for at least one step fails with
TimeExtrapolation, for both the NetCDF-backed and the xarray-backed
field set. -/
theorem globcurrent_time_extrapolation_error
    (d : ℚ → ℚ → ℚ → ℚ × ℚ) (t0 : ℚ) (rest : List ℚ)
    (hmin : ∀ s ∈ rest, t0 ≤ s)
    (lon lat dt : ℚ) (n : Nat) :
    runAdvRK4 ((FieldSetM.from_netcdf ⟨t0 :: rest, d⟩).evalUV)
        (t0 - 86400) dt (n + 1) (lon, lat) = .error .TimeExtrapolation ∧
    runAdvRK4 ((FieldSetM.from_xarray_dataset (open_mfdataset ⟨t0 :: rest, d⟩)).evalUV)
        (t0 - 86400) dt (n + 1) (lon, lat) = .error .TimeExtrapolation := by
  have hb : timeBracket (t0 :: rest) (t0 - 86400) = none := by
    apply timeBracket_none_of_lt
    intro s hs
    rcases List.mem_cons.mp hs with h | h
    · rw [h]; linarith
    · have := hmin s h; linarith
  have heval : ∀ x y, evalDeferred ⟨t0 :: rest, d⟩ (t0 - 86400) x y =
      .error .TimeExtrapolation := by
    intro x y
    unfold evalDeferred
    rw [show (RawFieldData.mk (t0 :: rest) d).times = t0 :: rest from rfl, hb]
  exact ⟨runAdvRK4_error_first _ _ _ _ _ _ (heval lon lat),
    runAdvRK4_error_first _ _ _ _ _ _ (heval lon lat)⟩

/-- C4 witness: the theorem instantiated on a concrete calm series whose
first time is 0, for a particle released at time -86400. -/
theorem globcurrent_time_extrapolation_error_inst :
    runAdvRK4 ((FieldSetM.from_netcdf ⟨(0 : ℚ) :: [86400], fun _ _ _ => (0, 0)⟩).evalUV)
        ((0 : ℚ) - 86400) 300 (0 + 1) (25, -35) = .error .TimeExtrapolation ∧
    runAdvRK4 ((FieldSetM.from_xarray_dataset
          (open_mfdataset ⟨(0 : ℚ) :: [86400], fun _ _ _ => (0, 0)⟩)).evalUV)
        ((0 : ℚ) - 86400) 300 (0 + 1) (25, -35) = .error .TimeExtrapolation :=
  globcurrent_time_extrapolation_error (fun _ _ _ => (0, 0)) 0 [86400]
    (by decide) 25 (-35) 300 0

/-- C5: after NEMOGrid.__init__, the stored U and V arrays contain no
NaN entries: every position that was NaN in the file data is 0 and every
other position keeps the value read from the file; the interpolators are
built from the already-cleaned arrays. -/
theorem init_replaces_nan_with_zero (RBS : SplineBuilder)
    (fileU fileV : NCFile) (degree : Nat) :
    noNaN (NEMOGrid.initFrom RBS fileU fileV degree).U ∧
    noNaN (NEMOGrid.initFrom RBS fileU fileV degree).V ∧
    (∀ i j, ((NEMOGrid.initFrom RBS fileU fileV degree).U.get? i).bind
        (fun r => r.get? j) =
      ((fileU.vel00.get? i).bind (fun r => r.get? j)).map
        (fun v => if v.isnan then NpVal.val 0 else v)) ∧
    (∀ i j, ((NEMOGrid.initFrom RBS fileU fileV degree).V.get? i).bind
        (fun r => r.get? j) =
      ((fileV.vel00.get? i).bind (fun r => r.get? j)).map
        (fun v => if v.isnan then NpVal.val 0 else v)) ∧
    (NEMOGrid.initFrom RBS fileU fileV degree).interp_u =
      RBS (matCol0 fileU.nav_lat) (matRow0 fileU.nav_lon)
        (NEMOGrid.initFrom RBS fileU fileV degree).U degree degree ∧
    (NEMOGrid.initFrom RBS fileU fileV degree).interp_v =
      RBS (matCol0 fileV.nav_lat) (matRow0 fileV.nav_lon)
        (NEMOGrid.initFrom RBS fileU fileV degree).V degree degree :=
  ⟨noNaN_cleanNaN _, noNaN_cleanNaN _,
   fun i j => cleanNaN_get _ i j, fun i j => cleanNaN_get _ i j, rfl, rfl⟩

/-- C6: NEMOGrid.write(filename) produces the two files filename_U.nc
and filename_V.nc containing exactly the NEMO-convention variables
nav_lon, nav_lat, depthu (resp. depthv), time_counter and vozocrtx
(resp. vomecrty), the velocity variables having dimension order
(time_counter, depth, y, x); NEMOGrid.__init__ opens the same two
filenames and each variable it reads is among those written. -/
theorem write_nemo_layout_and_readback (filename : String) (g : NEMOGridData) :
    (NEMOGrid.write filename g).1.1 = filename ++ "_U.nc" ∧
    (NEMOGrid.write filename g).2.1 = filename ++ "_V.nc" ∧
    (NEMOGrid.write filename g).1.2.varDims =
      [("nav_lon", ["y", "x"]), ("nav_lat", ["y", "x"]),
       ("depthu", ["depthu"]), ("time_counter", ["time_counter"]),
       ("vozocrtx", ["time_counter", "depthu", "y", "x"])] ∧
    (NEMOGrid.write filename g).2.2.varDims =
      [("nav_lon", ["y", "x"]), ("nav_lat", ["y", "x"]),
       ("depthv", ["depthv"]), ("time_counter", ["time_counter"]),
       ("vomecrty", ["time_counter", "depthv", "y", "x"])] ∧
    initOpenFilenames filename =
      ((NEMOGrid.write filename g).1.1, (NEMOGrid.write filename g).2.1) ∧
    (∀ v ∈ initReadVarsU, v ∈ (NEMOGrid.write filename g).1.2.varDims.map Prod.fst) ∧
    (∀ v ∈ initReadVarsV, v ∈ (NEMOGrid.write filename g).2.2.varDims.map Prod.fst) := by
  refine ⟨rfl, rfl, rfl, rfl, rfl, ?_, ?_⟩
  · show ∀ v ∈ initReadVarsU,
        v ∈ ["nav_lon", "nav_lat", "depthu", "time_counter", "vozocrtx"]
    decide
  · show ∀ v ∈ initReadVarsV,
        v ∈ ["nav_lon", "nav_lat", "depthv", "time_counter", "vomecrty"]
    decide

/-- C7: NEMOGrid.eval(x, y) returns the pair (u, v) obtained by
evaluating at point (y, x) the splines fitted by RectBivariateSpline
over (lat[:, 0], lon[0, :]) to the NaN-cleaned U and V arrays with
spline degree equal to the constructor's degree argument in both axes;
the constructor's degree argument defaults to 3. -/
theorem eval_spline_lookup (RBS : SplineBuilder) (fileU fileV : NCFile)
    (degree : Nat) (x y : ℚ) :
    (NEMOGrid.initFrom RBS fileU fileV degree).eval x y =
      (RBS (matCol0 fileU.nav_lat) (matRow0 fileU.nav_lon)
         (cleanNaN fileU.vel00) degree degree y x,
       RBS (matCol0 fileV.nav_lat) (matRow0 fileV.nav_lon)
         (cleanNaN fileV.vel00) degree degree y x) ∧
    NEMOGrid.initFrom RBS fileU fileV = NEMOGrid.initFrom RBS fileU fileV 3 :=
  ⟨rfl, rfl⟩

/-- C8: _particles is a mutable class-level default: for two NEMOGrid
instances that have no instance-level _particles entry, add_particle on
the first appends to the single shared class-level list, so the particle
subsequently appears in the second instance's _particles too, and the
first instance's other state is left unchanged. -/
theorem shared_class_particle_list (classParticles : List Nat)
    (g1 g2 : NEMOGridObj) (p : Nat)
    (h1 : g1.particlesAttr = none) (h2 : g2.particlesAttr = none) :
    p ∈ NEMOGrid.lookupParticles (NEMOGrid.add_particle classParticles g1 p).1 g2 ∧
    NEMOGrid.lookupParticles (NEMOGrid.add_particle classParticles g1 p).1 g2 =
      NEMOGrid.lookupParticles classParticles g2 ++ [p] ∧
    (NEMOGrid.add_particle classParticles g1 p).2 = g1 := by
  unfold NEMOGrid.add_particle NEMOGrid.lookupParticles
  rw [h1, h2]
  exact ⟨List.mem_append_right _ (List.mem_singleton_self p), rfl, rfl⟩

/-- C8 witness: the theorem instantiated on two concrete instances with
no instance-level _particles entry. -/
theorem shared_class_particle_list_inst :
    7 ∈ NEMOGrid.lookupParticles
        (NEMOGrid.add_particle [3] ⟨none, [], []⟩ 7).1 ⟨none, [[NpVal.val 1]], []⟩ ∧
    NEMOGrid.lookupParticles (NEMOGrid.add_particle [3] ⟨none, [], []⟩ 7).1
        ⟨none, [[NpVal.val 1]], []⟩ =
      NEMOGrid.lookupParticles [3] ⟨none, [[NpVal.val 1]], []⟩ ++ [7] ∧
    (NEMOGrid.add_particle [3] ⟨none, [], []⟩ 7).2 = ⟨none, [], []⟩ :=
  shared_class_particle_list [3] ⟨none, [], []⟩ ⟨none, [[NpVal.val 1]], []⟩ 7 rfl rfl

/-- C9: write stores the transpose of the in-memory flow fields, so for
every NEMOGrid whose U and V are NaN-free, a write followed by __init__
on the written files yields U and V arrays equal to the transposes of
the originals. -/
theorem write_init_roundtrip_transposes (RBS : SplineBuilder)
    (filename : String) (g : NEMOGridData) (degree : Nat)
    (hU : noNaN g.U) (hV : noNaN g.V) :
    (NEMOGrid.initFrom RBS (NEMOGrid.write filename g).1.2
        (NEMOGrid.write filename g).2.2 degree).U = npTranspose g.U ∧
    (NEMOGrid.initFrom RBS (NEMOGrid.write filename g).1.2
        (NEMOGrid.write filename g).2.2 degree).V = npTranspose g.V := by
  constructor
  · show cleanNaN (npTranspose g.U) = npTranspose g.U
    exact cleanNaN_eq_self _ (noNaN_npTranspose _ hU)
  · show cleanNaN (npTranspose g.V) = npTranspose g.V
    exact cleanNaN_eq_self _ (noNaN_npTranspose _ hV)

/-- C9 witness: the round-trip theorem instantiated on a concrete
NaN-free 2x2 grid. -/
theorem write_init_roundtrip_transposes_inst :
    (NEMOGrid.initFrom zeroSpline (NEMOGrid.write "flow" roundtripGrid).1.2
        (NEMOGrid.write "flow" roundtripGrid).2.2 3).U =
      npTranspose roundtripGrid.U ∧
    (NEMOGrid.initFrom zeroSpline (NEMOGrid.write "flow" roundtripGrid).1.2
        (NEMOGrid.write "flow" roundtripGrid).2.2 3).V =
      npTranspose roundtripGrid.V :=
  write_init_roundtrip_transposes zeroSpline "flow" roundtripGrid 3
    (by decide) (by decide)

/-- C10: in the V-component file written by NEMOGrid.write, the
valid_min and valid_max attributes of nav_lon and nav_lat are set from
the U grid's coordinate arrays (lon_u[0], lon_u[-1], lat_u[0],
lat_u[-1]), while the nav_lon and nav_lat variable values themselves are
filled from lon_v and lat_v. -/
theorem vfile_attrs_from_u_grid (g : NEMOGridData) :
    (NEMOGrid.writeV g).nav_lon_valid_min = pyGet g.lon_u 0 ∧
    (NEMOGrid.writeV g).nav_lon_valid_max = pyGet g.lon_u (-1) ∧
    (NEMOGrid.writeV g).nav_lat_valid_min = pyGet g.lat_u 0 ∧
    (NEMOGrid.writeV g).nav_lat_valid_max = pyGet g.lat_u (-1) ∧
    (NEMOGrid.writeV g).nav_lon = List.replicate g.lat_v.length g.lon_v ∧
    (NEMOGrid.writeV g).nav_lat =
      g.lat_v.map (fun v => List.replicate g.lon_v.length v) :=
  ⟨rfl, rfl, rfl, rfl, rfl, rfl⟩
